import Mathlib

/-!
Shallow embedding of the Axon filter subscription hub
(`core/api/src/jsonrpc/impl/filter.rs`).

Block heights, hashes, subscription identifiers and instants are modelled as
`Nat` (u64/U256/Instant; overflow is irrelevant at chain heights).  The chain
reader (`APIAdapter`) is a record of query functions returning
`Except Unit _` for the fallible layer; the `Option` layer of each Rust
`Result<Option<_>>` is kept explicitly.  Receipt fetching plus the log
matcher `from_receipt_to_web3_log` (which lives outside this component) is
abstracted as `get_receipt_logs`, the list of matched-log records the loop
body appends for one block under a given filter.  A Rust panic of the hub
actor (an `unwrap` on a backend failure or on a reply-send into a dropped
receiver) is modelled as the `crash`/`none` outcome.
-/

namespace AxonFilter

/-- BlockId selector from the wire types: `Earliest`, `Latest`, `Pending`, `Num n`. -/
inductive BlockId where
  | earliest : BlockId
  | latest : BlockId
  | pending : BlockId
  | num : Nat → BlockId
  deriving DecidableEq, Repr

/-- LoggerFilter as stored by the hub (`filter.rs` lines 31-37): from/to block
selectors, optional address list, up to four topic positions. -/
structure LoggerFilter where
  from_block : Option BlockId
  to_block : Option BlockId
  address : Option (List Nat)
  topics : List (Option (List (Option Nat)))
  deriving DecidableEq, Repr

/-- A block (or header), reduced to the two fields the hub reads: height and hash. -/
structure Block where
  number : Nat
  hash : Nat
  deriving DecidableEq, Repr

/-- Chain reader interface consumed by the hub.  `get_receipt_logs flt n`
stands for `get_receipts_by_hashes` on block `n` followed by the
`extend_logs` matcher under filter `flt`. -/
structure Adapter where
  get_block_by_number : Option Nat → Except Unit (Option Block)
  get_block_header_by_number : Option Nat → Except Unit (Option Block)
  get_receipt_logs : LoggerFilter → Nat → Except Unit (List Nat)

/-- RpcError variants reachable from the filter module. -/
inductive RpcError where
  | internal : RpcError
  | invalidFromBlockAndToBlockUnion : RpcError
  | invalidBlockRange : Nat → Nat → Nat → RpcError
  | cannotFindFilterId : Nat → RpcError
  deriving DecidableEq, Repr

/-- FilterChanges reply payload: block hashes or matched logs. -/
inductive FilterChanges where
  | blocks : List Nat → FilterChanges
  | logs : List Nat → FilterChanges
  deriving DecidableEq, Repr

/-- Outcome of a log poll: success, an error surfaced to the caller, or an
actor panic (`unwrap` on `Ok(None)` from the backend). -/
inductive PollRes (α : Type) where
  | ok : α → PollRes α
  | err : RpcError → PollRes α
  | crash : PollRes α
  deriving DecidableEq, Repr

/-- The registry: association lists from subscription id to entry, plus the
configured maximum log-scan range (`FilterHub` struct, lines 134-140).
Each entry carries its `last_access` instant as the final component. -/
structure FilterHub where
  logs_hub : List (Nat × LoggerFilter × Nat)
  blocks_hub : List (Nat × Nat × Nat)
  log_filter_max_block_range : Nat
  deriving DecidableEq, Repr

/-- First-match lookup in a sub-map. -/
def hubLookup {α : Type} : List (Nat × α) → Nat → Option α
  | [], _ => none
  | (k, v) :: rest, id => if k = id then some v else hubLookup rest id

/-- Removal of a key from a sub-map (`HashMap::remove`). -/
def hubRemove {α : Type} (hub : List (Nat × α)) (id : Nat) : List (Nat × α) :=
  hub.filter (fun e => e.1 != id)

/-- Insertion (`HashMap::insert`): the key maps to the new value afterwards. -/
def hubInsert {α : Type} (hub : List (Nat × α)) (id : Nat) (v : α) : List (Nat × α) :=
  (id, v) :: hubRemove hub id

/-- Sweep period of the actor loop (`interval(Duration::from_secs(20))`). -/
def sweep_interval_secs : Nat := 20

/-- Idle-eviction window (`Duration::from_secs(40)` in `check_hubs`). -/
def idle_window_secs : Nat := 40

/-- Sweep pass (`check_hubs`, lines 184-190): retain an entry iff
`now.saturating_duration_since(last_access) < 40s`; Nat subtraction is the
saturating difference. -/
def check_hubs (now : Nat) (hub : FilterHub) : FilterHub :=
  { hub with
    blocks_hub := hub.blocks_hub.filter (fun e => decide (now - e.2.2 < idle_window_secs)),
    logs_hub := hub.logs_hub.filter (fun e => decide (now - e.2.2 < idle_window_secs)) }

/-- BlockId resolution used by `filter_logs` (lines 303-309):
`Num n → n`, `Earliest → 0`, anything else → the latest height. -/
def convertBlockId (latest_number : Nat) : BlockId → Nat
  | BlockId.num n => n
  | BlockId.earliest => 0
  | _ => latest_number

/-- Resolved scan start (lines 311-316): `from_block` converted, defaulting to
the latest height when absent. -/
def resolved_start (latest_number : Nat) (flt : LoggerFilter) : Nat :=
  (flt.from_block.map (convertBlockId latest_number)).getD latest_number

/-- Resolved scan stop (lines 317-324): `to_block` converted (defaulting to the
latest height), capped at the latest height. -/
def resolved_stop (latest_number : Nat) (flt : LoggerFilter) : Nat :=
  min ((flt.to_block.map (convertBlockId latest_number)).getD latest_number) latest_number

/-- Scan loop of `filter_logs` (lines 348-367) over an ascending list of
heights: a height equal to the latest block's number only sets the
`visiter_last_block` flag; any other height fetches the block (an `Ok(None)`
reply panics via `unwrap`, an `Err` is surfaced) and appends that block's
matched logs (receipt fetch failure surfaced). -/
def scan_blocks (adapter : Adapter) (flt : LoggerFilter) (latest_number : Nat) :
    List Nat → PollRes (List Nat × Bool)
  | [] => PollRes.ok ([], false)
  | n :: rest =>
    if n = latest_number then
      match scan_blocks adapter flt latest_number rest with
      | PollRes.ok (ls, _) => PollRes.ok (ls, true)
      | r => r
    else
      match adapter.get_block_by_number (some n) with
      | Except.error _ => PollRes.err RpcError.internal
      | Except.ok none => PollRes.crash
      | Except.ok (some block) =>
        match adapter.get_receipt_logs flt block.number with
        | Except.error _ => PollRes.err RpcError.internal
        | Except.ok ls =>
          match scan_blocks adapter flt latest_number rest with
          | PollRes.ok (more, flag) => PollRes.ok (ls ++ more, flag)
          | r => r

/-- Post-loop handling of the latest block (lines 369-381): when the loop
visited the latest height, fetch the head block's receipts (reusing the
already-fetched head block) and append its matched logs. -/
def append_last_block_logs (adapter : Adapter) (flt : LoggerFilter) (latest_block : Block)
    (visited : Bool) (logs1 : List Nat) : Except RpcError (List Nat) :=
  if visited then
    match adapter.get_receipt_logs flt latest_block.number with
    | Except.error _ => Except.error RpcError.internal
    | Except.ok ls => Except.ok (logs1 ++ ls)
  else Except.ok logs1

/-- Cursor advance (lines 383-385): only a `Some(Num _)` from_block is
rewritten, to `Num (stop + 1)`. -/
def advance_cursor (stop : Nat) (flt : LoggerFilter) : LoggerFilter :=
  match flt.from_block with
  | some (BlockId.num _) => { flt with from_block := some (BlockId.num (stop + 1)) }
  | _ => flt

/-- Body of `filter_logs` after the head block was fetched (lines 300-387).
Returns the produced logs together with the updated entry (filter and
last-access instant).  The `start > latest` early return hands back the entry
unchanged; a range violation is an error; otherwise the range is scanned and
on success the cursor is advanced to `stop + 1` and `last_access` set to
`now`. -/
def filter_logs_body (adapter : Adapter) (max now : Nat) (flt : LoggerFilter) (time : Nat)
    (latest_block : Block) : PollRes (List Nat × LoggerFilter × Nat) :=
  let latest_number := latest_block.number
  let start := resolved_start latest_number flt
  let stop := resolved_stop latest_number flt
  if latest_number < start then
    PollRes.ok ([], flt, time)
  else if max < stop - start then
    PollRes.err (RpcError.invalidBlockRange start stop max)
  else
    match scan_blocks adapter flt latest_number (List.range' start (stop + 1 - start)) with
    | PollRes.crash => PollRes.crash
    | PollRes.err e => PollRes.err e
    | PollRes.ok (logs1, visited) =>
      match append_last_block_logs adapter flt latest_block visited logs1 with
      | Except.error e => PollRes.err e
      | Except.ok all_logs => PollRes.ok (all_logs, advance_cursor stop flt, now)

/-- `filter_logs` (lines 287-388): fetch the head block (backend error
surfaced, a missing head panics), then run the body. -/
def filter_logs (adapter : Adapter) (max now : Nat) (flt : LoggerFilter) (time : Nat) :
    PollRes (List Nat × LoggerFilter × Nat) :=
  match adapter.get_block_by_number none with
  | Except.error _ => PollRes.err RpcError.internal
  | Except.ok none => PollRes.crash
  | Except.ok (some latest_block) => filter_logs_body adapter max now flt time latest_block

/-- Hash collection by the block-watch loop (lines 268-277): every fetch is
`unwrap`ped twice, so any failure panics (`none`). -/
def collect_hashes (adapter : Adapter) : List Nat → Option (List Nat)
  | [] => some []
  | n :: rest =>
    match adapter.get_block_by_number (some n) with
    | Except.error _ => none
    | Except.ok none => none
    | Except.ok (some block) =>
      match collect_hashes adapter rest with
      | some hs => some (block.hash :: hs)
      | none => none

/-- `filter_block` (lines 254-285) on one entry `(start, time)`: returns the
hash list and the updated entry, or `none` for an actor panic.  The
`start >= latest` early return keeps both cursor and `last_access`; otherwise
heights `start+1 .. latest-1` are fetched, the head hash appended, the cursor
set to the head height and `last_access` to `now`. -/
def filter_block (adapter : Adapter) (now start time : Nat) :
    Option (List Nat × Nat × Nat) :=
  match adapter.get_block_by_number none with
  | Except.error _ => none
  | Except.ok none => none
  | Except.ok (some latest) =>
    if latest.number ≤ start then some ([], start, time)
    else
      match collect_hashes adapter (List.range' (start + 1) (latest.number - (start + 1))) with
      | none => none
      | some hs => some (hs ++ [latest.hash], latest.number, now)

/-- `impl_filter` (lines 237-252): dispatch on which sub-map holds the id; the
block path wraps its hashes in `Ok`, the log path removes the entry on error,
an unknown id replies `CannotFindFilterId`.  `none` is an actor panic. -/
def impl_filter (adapter : Adapter) (now : Nat) (hub : FilterHub) (id : Nat) :
    Option (FilterHub × Except RpcError FilterChanges) :=
  match hubLookup hub.blocks_hub id with
  | some (start, time) =>
    match filter_block adapter now start time with
    | none => none
    | some (hashes, start', time') =>
      some ({ hub with blocks_hub := hubInsert hub.blocks_hub id (start', time') },
            Except.ok (FilterChanges.blocks hashes))
  | none =>
    match hubLookup hub.logs_hub id with
    | some (flt, time) =>
      match filter_logs adapter hub.log_filter_max_block_range now flt time with
      | PollRes.crash => none
      | PollRes.err e =>
        some ({ hub with logs_hub := hubRemove hub.logs_hub id }, Except.error e)
      | PollRes.ok (logs, flt', time') =>
        some ({ hub with logs_hub := hubInsert hub.logs_hub id (flt', time') },
              Except.ok (FilterChanges.logs logs))
    | none => some (hub, Except.error (RpcError.cannotFindFilterId id))

/-- From-block resolution of the `NewLogs` arm (lines 203-212): an absent
from_block counts as `Latest`; an explicit `Num n` is overwritten with
`Num (head + 1)` when `n < head` and kept otherwise; every non-`Num`
selector is overwritten with `Num (head + 1)`. -/
def resolve_from (header_number : Nat) (flt : LoggerFilter) : LoggerFilter :=
  match flt.from_block.getD BlockId.latest with
  | BlockId.num n =>
    if n < header_number then
      { flt with from_block := some (BlockId.num (header_number + 1)) }
    else flt
  | _ => { flt with from_block := some (BlockId.num (header_number + 1)) }

/-- Commands processed by the hub actor (lines 127-132), without the reply
channels (replaced by the `receiver_alive` flag of `handle`). -/
inductive Command where
  | newLogs : LoggerFilter → Command
  | newBlocks : Command
  | filterRequest : Nat → Command
  | uninstall : Nat → Command
  deriving DecidableEq, Repr

/-- Replies the actor writes into a request's reply slot. -/
inductive Reply where
  | id : Nat → Reply
  | changes : Except RpcError FilterChanges → Reply
  | removed : Bool → Reply

/-- `handle` (lines 192-235): one actor step.  `fresh_id` models the value
`random_id()` draws; `receiver_alive` is whether the request's reply slot
still has its receiver — every reply is delivered by `send(..).unwrap()`, so
a dropped receiver panics the actor (`none`), as does an `unwrap`ped backend
failure on the creation paths.  Uninstall removes from the blocks map and,
only when that removed nothing (`||` short-circuit), from the logs map. -/
def handle (adapter : Adapter) (now fresh_id : Nat) (receiver_alive : Bool)
    (hub : FilterHub) (cmd : Command) : Option (FilterHub × Reply) :=
  match cmd with
  | Command.newLogs flt =>
    match adapter.get_block_header_by_number none with
    | Except.error _ => none
    | Except.ok none => none
    | Except.ok (some header) =>
      let hub' := { hub with
        logs_hub := hubInsert hub.logs_hub fresh_id (resolve_from header.number flt, now) }
      if receiver_alive then some (hub', Reply.id fresh_id) else none
  | Command.newBlocks =>
    match adapter.get_block_header_by_number none with
    | Except.error _ => none
    | Except.ok none => none
    | Except.ok (some header) =>
      let hub' := { hub with
        blocks_hub := hubInsert hub.blocks_hub fresh_id (header.number, now) }
      if receiver_alive then some (hub', Reply.id fresh_id) else none
  | Command.filterRequest id =>
    match impl_filter adapter now hub id with
    | none => none
    | some (hub', res) =>
      if receiver_alive then some (hub', Reply.changes res) else none
  | Command.uninstall id =>
    if (hubLookup hub.blocks_hub id).isSome then
      let hub' := { hub with blocks_hub := hubRemove hub.blocks_hub id }
      if receiver_alive then some (hub', Reply.removed true) else none
    else
      let hub' := { hub with blocks_hub := hubRemove hub.blocks_hub id,
                             logs_hub := hubRemove hub.logs_hub id }
      if receiver_alive then
        some (hub', Reply.removed (hubLookup hub.logs_hub id).isSome)
      else none

/-- Front-door validation of `new_filter` (lines 62-71): reject
`from_block = Pending`, and reject `to_block` equal to `Earliest` or the
literal number 0, before any command is sent. -/
def new_filter_precheck (flt : LoggerFilter) : Except RpcError Unit :=
  if flt.from_block = some BlockId.pending then
    Except.error RpcError.invalidFromBlockAndToBlockUnion
  else
    match flt.to_block with
    | some BlockId.earliest => Except.error RpcError.internal
    | some (BlockId.num 0) => Except.error RpcError.internal
    | _ => Except.ok ()

/-- Command built by `get_filter_logs` (lines 93-102). -/
def get_filter_logs_command (id : Nat) : Command := Command.filterRequest id

/-- Command built by `get_filter_changes` (lines 104-113). -/
def get_filter_changes_command (id : Nat) : Command := Command.filterRequest id

/-- Concrete adapter over a total chain: a head block, a canonical block at
each height, and per-block matched logs independent of the filter. -/
def mkAdapter (head : Block) (blockAt : Nat → Option Block) (logsAt : Nat → List Nat) :
    Adapter where
  get_block_by_number := fun q =>
    match q with
    | none => Except.ok (some head)
    | some n => Except.ok (blockAt n)
  get_block_header_by_number := fun q =>
    match q with
    | none => Except.ok (some head)
    | some n => Except.ok (blockAt n)
  get_receipt_logs := fun _ n => Except.ok (logsAt n)

/-- Empty registry with a maximum scan range of 100. -/
def hub0 : FilterHub := { logs_hub := [], blocks_hub := [], log_filter_max_block_range := 100 }

/-- Canonical test chain: the block at height `n` has hash `1000 + n`. -/
def chain1 (n : Nat) : Option Block := some { number := n, hash := 1000 + n }

/-- Test adapter over `chain1` with head at height 3 and no logs. -/
def adHead3 : Adapter := mkAdapter { number := 3, hash := 1003 } chain1 (fun _ => [])

/-- Test adapter over `chain1` with head at height 5 and no logs. -/
def adHead5 : Adapter := mkAdapter { number := 5, hash := 1005 } chain1 (fun _ => [])

/-- Test adapter over `chain1` with head at height 7 and no logs. -/
def adHead7 : Adapter := mkAdapter { number := 7, hash := 1007 } chain1 (fun _ => [])

/-- Test adapter over `chain1` with head at height 10 and no logs. -/
def adHead10 : Adapter := mkAdapter { number := 10, hash := 1010 } chain1 (fun _ => [])

/-- Test adapter over `chain1` with head at height 12; block `n` yields the
single matched-log record `n`. -/
def adHead12 : Adapter := mkAdapter { number := 12, hash := 1012 } chain1 (fun n => [n])

/-- Test adapter over `chain1` with head at height 103 and no logs. -/
def adHead103 : Adapter := mkAdapter { number := 103, hash := 1103 } chain1 (fun _ => [])

/-- Adapter whose every query fails, modelling a Chain Reader outage. -/
def adFail : Adapter where
  get_block_by_number := fun _ => Except.error ()
  get_block_header_by_number := fun _ => Except.error ()
  get_receipt_logs := fun _ _ => Except.error ()

/-- One event of the actor loop's `select`: either a command dequeued from the
command queue (with the ambient time, the id `random_id()` would draw and the
liveness of its reply slot) or a sweep-ticker tick. -/
inductive LoopEvent where
  | request : Adapter → Nat → Nat → Bool → Command → LoopEvent
  | tick : Nat → LoopEvent

/-- The actor loop (`run`, lines 160-182) over a finite event stream.  The end
of the stream is the closure of the command queue (`recv` returning `None`),
the only normal exit of the loop, answering the final registry state; a
panicking step (`handle` returning `none`) aborts the loop with `none`
regardless of the remaining events. -/
def run (hub : FilterHub) : List LoopEvent → Option FilterHub
  | [] => some hub
  | LoopEvent.tick now :: rest => run (check_hubs now hub) rest
  | LoopEvent.request adapter now fresh_id alive cmd :: rest =>
    match handle adapter now fresh_id alive hub cmd with
    | none => none
    | some (hub', _) => run hub' rest

/-- Log filter with cursor `Number(1)` used by concrete instantiations. -/
def fltLogOnly : LoggerFilter :=
  { from_block := some (BlockId.num 1), to_block := none, address := none, topics := [] }

/-- Registry holding only the log watch 7 (entry `fltLogOnly`, last access 0)
with maximum scan range 100. -/
def hubLogOnly : FilterHub :=
  { logs_hub := [(7, fltLogOnly, 0)], blocks_hub := [], log_filter_max_block_range := 100 }

/-! Helper lemmas about the registry maps and the poll functions. -/

theorem hubLookup_hubRemove_self {α : Type} (hub : List (Nat × α)) (id : Nat) :
    hubLookup (hubRemove hub id) id = none := by
  induction hub with
  | nil => rfl
  | cons e rest ih =>
    rcases e with ⟨k, v⟩
    by_cases h : k = id
    · simpa [hubRemove, List.filter_cons, h] using ih
    · simpa [hubRemove, List.filter_cons, h, hubLookup] using ih

theorem hubRemove_eq_self {α : Type} (hub : List (Nat × α)) (id : Nat)
    (h : hubLookup hub id = none) : hubRemove hub id = hub := by
  induction hub with
  | nil => rfl
  | cons e rest ih =>
    rcases e with ⟨k, v⟩
    by_cases hk : k = id
    · simp [hubLookup, hk] at h
    · have h2 : hubLookup rest id = none := by simpa [hubLookup, hk] using h
      have h3 := ih h2
      simp only [hubRemove, List.filter_cons] at h3 ⊢
      simp [hk, h3]

theorem hubLookup_hubInsert_self {α : Type} (hub : List (Nat × α)) (id : Nat) (v : α) :
    hubLookup (hubInsert hub id v) id = some v := by
  simp [hubInsert, hubLookup]

theorem collect_hashes_total (adapter : Adapter) (blockAt : Nat → Block)
    (hb : ∀ n, adapter.get_block_by_number (some n) = Except.ok (some (blockAt n)))
    (l : List Nat) : collect_hashes adapter l = some (l.map (fun n => (blockAt n).hash)) := by
  induction l with
  | nil => rfl
  | cons n rest ih => simp [collect_hashes, hb n, ih]

theorem impl_filter_logs_path (adapter : Adapter) (now : Nat) (hub : FilterHub) (id : Nat)
    (flt : LoggerFilter) (time : Nat)
    (hb : hubLookup hub.blocks_hub id = none)
    (hl : hubLookup hub.logs_hub id = some (flt, time)) :
    impl_filter adapter now hub id =
      (match filter_logs adapter hub.log_filter_max_block_range now flt time with
       | PollRes.crash => none
       | PollRes.err e =>
         some ({ hub with logs_hub := hubRemove hub.logs_hub id }, Except.error e)
       | PollRes.ok (logs, flt', time') =>
         some ({ hub with logs_hub := hubInsert hub.logs_hub id (flt', time') },
               Except.ok (FilterChanges.logs logs))) := by
  unfold impl_filter
  rw [hb, hl]

theorem filter_logs_early_return (adapter : Adapter) (max now : Nat) (flt : LoggerFilter)
    (time : Nat) (latest : Block)
    (hh : adapter.get_block_by_number none = Except.ok (some latest))
    (hs : latest.number < resolved_start latest.number flt) :
    filter_logs adapter max now flt time = PollRes.ok ([], flt, time) := by
  unfold filter_logs
  rw [hh]
  unfold filter_logs_body
  simp [hs]

theorem filter_logs_range_err (adapter : Adapter) (max now : Nat) (flt : LoggerFilter)
    (time : Nat) (latest : Block)
    (hh : adapter.get_block_by_number none = Except.ok (some latest))
    (hs : resolved_start latest.number flt ≤ latest.number)
    (hr : max < resolved_stop latest.number flt - resolved_start latest.number flt) :
    filter_logs adapter max now flt time =
      PollRes.err (RpcError.invalidBlockRange (resolved_start latest.number flt)
        (resolved_stop latest.number flt) max) := by
  unfold filter_logs
  rw [hh]
  unfold filter_logs_body
  simp [Nat.not_lt.mpr hs, hr]

theorem filter_logs_empty_range (adapter : Adapter) (max now : Nat) (flt : LoggerFilter)
    (time : Nat) (latest : Block)
    (hh : adapter.get_block_by_number none = Except.ok (some latest))
    (hs : resolved_start latest.number flt ≤ latest.number)
    (hlt : resolved_stop latest.number flt < resolved_start latest.number flt) :
    filter_logs adapter max now flt time =
      PollRes.ok ([], advance_cursor (resolved_stop latest.number flt) flt, now) := by
  unfold filter_logs
  rw [hh]
  unfold filter_logs_body
  have h0 : resolved_stop latest.number flt - resolved_start latest.number flt = 0 :=
    Nat.sub_eq_zero_of_le (Nat.le_of_lt hlt)
  have h1 : resolved_stop latest.number flt + 1 - resolved_start latest.number flt = 0 :=
    Nat.sub_eq_zero_of_le hlt
  simp [Nat.not_lt.mpr hs, h0, h1, scan_blocks, append_last_block_logs]

theorem filter_logs_ok_cases (adapter : Adapter) (max now : Nat) (flt : LoggerFilter)
    (time : Nat) (latest : Block) (logs : List Nat) (flt' : LoggerFilter) (time' : Nat)
    (hh : adapter.get_block_by_number none = Except.ok (some latest))
    (hok : filter_logs adapter max now flt time = PollRes.ok (logs, flt', time')) :
    (latest.number < resolved_start latest.number flt ∧
      logs = [] ∧ flt' = flt ∧ time' = time) ∨
    (resolved_start latest.number flt ≤ latest.number ∧
      flt' = advance_cursor (resolved_stop latest.number flt) flt ∧ time' = now) := by
  unfold filter_logs at hok
  rw [hh] at hok
  unfold filter_logs_body at hok
  by_cases hs : latest.number < resolved_start latest.number flt
  · left
    simp [hs] at hok
    exact ⟨hs, hok.1, hok.2.1.symm, hok.2.2.symm⟩
  · right
    refine ⟨Nat.not_lt.mp hs, ?_⟩
    simp [hs] at hok
    split at hok
    · cases hok
    · split at hok
      · cases hok
      · cases hok
      · rename_i heq
        split at hok
        · cases hok
        · cases hok
          exact ⟨rfl, rfl⟩

/-! Claim theorems. -/

/-- C1 counterexample: registering a log filter with `from_block = Number(3)`
while the head height is 10 (an explicit number strictly below the head)
stores the cursor `Number(11) = Number(head + 1)`, not `Number(3)` as the
claim states: the code keeps an explicit number only when it is `≥` the head
and pins a smaller one to `head + 1`. -/
theorem C1_counterexample :
    handle adHead10 0 1 true hub0
        (Command.newLogs { from_block := some (BlockId.num 3), to_block := none,
                           address := none, topics := [] }) =
      some ({ hub0 with logs_hub :=
          [(1, { from_block := some (BlockId.num 11), to_block := none,
                 address := none, topics := [] }, 0)] },
        Reply.id 1) ∧
    (some (BlockId.num 11) : Option BlockId) ≠ some (BlockId.num 3) := by
  exact ⟨rfl, by decide⟩

/-- C1 (amended): for every successful log-filter registration with head
height `H`, the stored entry is inserted with the resolved filter and the
resolved `from_block` cursor equals `Number(n)` when the request named an
explicit `Number(n)` with `n ≥ H` (kept as given), and `Number(H + 1)` in
every other case (absent, `Latest`, `Earliest`, `Pending`, or `Number(n)`
with `n < H`). -/
theorem C1_stored_cursor (adapter : Adapter) (now fresh_id : Nat) (hub : FilterHub)
    (flt : LoggerFilter) (header : Block)
    (hh : adapter.get_block_header_by_number none = Except.ok (some header)) :
    handle adapter now fresh_id true hub (Command.newLogs flt) =
      some ({ hub with
                logs_hub := hubInsert hub.logs_hub fresh_id (resolve_from header.number flt, now) },
        Reply.id fresh_id) ∧
    (resolve_from header.number flt).from_block =
      (match flt.from_block with
       | some (BlockId.num n) =>
         if header.number ≤ n then some (BlockId.num n)
         else some (BlockId.num (header.number + 1))
       | _ => some (BlockId.num (header.number + 1))) := by
  constructor
  · unfold handle
    rw [hh]
    rfl
  · unfold resolve_from
    rcases hf : flt.from_block with _ | b
    · simp [hf]
    · rcases b with _ | _ | _ | n
      · simp [hf]
      · simp [hf]
      · simp [hf]
      · rcases Nat.lt_or_ge n header.number with h | h
        · simp [hf, h, Nat.not_le.mpr h]
        · simp [hf, Nat.not_lt.mpr h, Nat.le_of_lt, h]

/-- C1 witness: instantiating the amended statement at head height 10 and a
request with `from_block = Number(12)` (an explicit number at least the
head), which is kept as given. -/
theorem C1_witness :
    handle adHead10 0 1 true hub0
        (Command.newLogs { from_block := some (BlockId.num 12), to_block := none,
                           address := none, topics := [] }) =
      some ({ hub0 with
                logs_hub := hubInsert hub0.logs_hub 1
                  (resolve_from (10 : Nat)
                    { from_block := some (BlockId.num 12), to_block := none,
                      address := none, topics := [] }, 0) },
        Reply.id 1) ∧
    (resolve_from (10 : Nat)
        { from_block := some (BlockId.num 12), to_block := none,
          address := none, topics := [] }).from_block =
      (if (10 : Nat) ≤ 12 then some (BlockId.num 12) else some (BlockId.num 11)) :=
  C1_stored_cursor adHead10 0 1 hub0
    { from_block := some (BlockId.num 12), to_block := none, address := none, topics := [] }
    { number := 10, hash := 1010 } rfl

/-- C2 counterexample: the filter `from_block = Number(5)`, `to_block =
Number(2)` passes the front-door validation, is registered unchanged at head
height 3 (5 ≥ 3 is kept), and a later successful poll at head height 5
rewinds the stored cursor from `Number(5)` to `Number(3)` — the cursor
decreased across a successful poll, refuting monotonicity. -/
theorem C2_counterexample :
    new_filter_precheck { from_block := some (BlockId.num 5), to_block := some (BlockId.num 2),
                          address := none, topics := [] } = Except.ok () ∧
    handle adHead3 0 1 true hub0
        (Command.newLogs { from_block := some (BlockId.num 5),
                           to_block := some (BlockId.num 2),
                           address := none, topics := [] }) =
      some ({ hub0 with logs_hub :=
          [(1, { from_block := some (BlockId.num 5), to_block := some (BlockId.num 2),
                 address := none, topics := [] }, 0)] },
        Reply.id 1) ∧
    filter_logs adHead5 100 7
        { from_block := some (BlockId.num 5), to_block := some (BlockId.num 2),
          address := none, topics := [] } 0 =
      PollRes.ok ([], { from_block := some (BlockId.num 3), to_block := some (BlockId.num 2),
                        address := none, topics := [] }, 7) ∧
    (3 : Nat) < 5 := by
  exact ⟨rfl, rfl, rfl, by decide⟩

/-- C2 (amended): for every accepted registration and every successful poll of
a log-watch whose stored cursor is `Number(c)`, the new cursor is some
`Number(c')` with either `c ≤ c'` (the cursor advanced or stood still), or
the filter was registered with `to_block = Number(t)` where `t + 1 < c`, in
which case the poll rewinds the cursor to exactly `t + 1`. -/
theorem C2_cursor_advance (adapter : Adapter) (max now time c : Nat) (flt flt' : LoggerFilter)
    (logs : List Nat) (time' : Nat) (latest : Block)
    (hpre : new_filter_precheck flt = Except.ok ())
    (hfrom : flt.from_block = some (BlockId.num c))
    (hh : adapter.get_block_by_number none = Except.ok (some latest))
    (hok : filter_logs adapter max now flt time = PollRes.ok (logs, flt', time')) :
    ∃ c', flt'.from_block = some (BlockId.num c') ∧
      (c ≤ c' ∨ ∃ t, flt.to_block = some (BlockId.num t) ∧ t + 1 < c ∧ c' = t + 1) := by
  have hstart : resolved_start latest.number flt = c := by
    simp [resolved_start, hfrom, convertBlockId]
  rcases filter_logs_ok_cases adapter max now flt time latest logs flt' time' hh hok with
    ⟨_, _, hflt, _⟩ | ⟨hle, hflt, _⟩
  · exact ⟨c, by rw [hflt, hfrom], Or.inl (Nat.le_refl c)⟩
  · rw [hstart] at hle
    refine ⟨resolved_stop latest.number flt + 1, ?_, ?_⟩
    · rw [hflt]
      unfold advance_cursor
      rw [hfrom]
    · rcases ht : flt.to_block with _ | b
      · left
        have : resolved_stop latest.number flt = latest.number := by
          simp [resolved_stop, ht]
        omega
      · rcases b with _ | _ | _ | t
        · exfalso
          unfold new_filter_precheck at hpre
          rw [ht] at hpre
          by_cases hp : flt.from_block = some BlockId.pending <;> simp [hp] at hpre
        · left
          have : resolved_stop latest.number flt = latest.number := by
            simp [resolved_stop, ht, convertBlockId]
          omega
        · left
          have : resolved_stop latest.number flt = latest.number := by
            simp [resolved_stop, ht, convertBlockId]
          omega
        · have hstop : resolved_stop latest.number flt = min t latest.number := by
            simp [resolved_stop, ht, convertBlockId]
          rcases Nat.lt_or_ge (resolved_stop latest.number flt + 1) c with hlt | hge
          · right
            exact ⟨t, rfl, by omega, by omega⟩
          · exact Or.inl hge

/-- C2 witness: instantiating the amended statement on a poll at head height 5
of an accepted filter with cursor `Number(3)` and no `to_block`; the poll
succeeds and the new cursor is `Number(6)`, an advance. -/
theorem C2_witness :
    ∃ c', ({ from_block := some (BlockId.num 6), to_block := none,
             address := none, topics := [] } : LoggerFilter).from_block =
        some (BlockId.num c') ∧
      (3 ≤ c' ∨ ∃ t, ({ from_block := some (BlockId.num 3), to_block := none,
                        address := none, topics := [] } : LoggerFilter).to_block =
          some (BlockId.num t) ∧ t + 1 < 3 ∧ c' = t + 1) :=
  C2_cursor_advance adHead5 100 9 0 3
    { from_block := some (BlockId.num 3), to_block := none, address := none, topics := [] }
    { from_block := some (BlockId.num 6), to_block := none, address := none, topics := [] }
    [] 9 { number := 5, hash := 1005 } rfl rfl rfl rfl

/-- C3: a log-watch poll whose resolved `end - start` (saturating) exceeds the
configured maximum fails with `InvalidBlockRange(start, end, max)`, the entry
is removed from the registry by that failure, and a subsequent poll of the
same id (under any adapter and time) fails with `CannotFindFilterId`. -/
theorem C3_range_too_large (adapter adapter2 : Adapter) (now now2 id : Nat) (hub : FilterHub)
    (flt : LoggerFilter) (time : Nat) (latest : Block)
    (hb : hubLookup hub.blocks_hub id = none)
    (hl : hubLookup hub.logs_hub id = some (flt, time))
    (hh : adapter.get_block_by_number none = Except.ok (some latest))
    (hs : resolved_start latest.number flt ≤ latest.number)
    (hr : hub.log_filter_max_block_range <
      resolved_stop latest.number flt - resolved_start latest.number flt) :
    impl_filter adapter now hub id =
      some ({ hub with logs_hub := hubRemove hub.logs_hub id },
        Except.error (RpcError.invalidBlockRange (resolved_start latest.number flt)
          (resolved_stop latest.number flt) hub.log_filter_max_block_range)) ∧
    impl_filter adapter2 now2 { hub with logs_hub := hubRemove hub.logs_hub id } id =
      some ({ hub with logs_hub := hubRemove hub.logs_hub id },
        Except.error (RpcError.cannotFindFilterId id)) := by
  constructor
  · rw [impl_filter_logs_path adapter now hub id flt time hb hl]
    rw [filter_logs_range_err adapter hub.log_filter_max_block_range now flt time latest hh hs hr]
  · unfold impl_filter
    have hb2 : hubLookup ({ hub with logs_hub := hubRemove hub.logs_hub id }).blocks_hub id =
        none := hb
    have hl2 : hubLookup ({ hub with logs_hub := hubRemove hub.logs_hub id }).logs_hub id =
        none := hubLookup_hubRemove_self hub.logs_hub id
    rw [hb2, hl2]

/-- C3 witness: a registry holding one log filter `from = Number(0)` (whole
range) with maximum range 2 and head height 10: the poll fails with
`InvalidBlockRange(0, 10, 2)`, removes the entry, and the next poll fails
with `CannotFindFilterId`. -/
theorem C3_witness :
    impl_filter adHead10 99
        { logs_hub := [(7, { from_block := some (BlockId.num 0), to_block := none,
                             address := none, topics := [] }, 0)],
          blocks_hub := [], log_filter_max_block_range := 2 } 7 =
      some ({ logs_hub := [], blocks_hub := [], log_filter_max_block_range := 2 },
        Except.error (RpcError.invalidBlockRange 0 10 2)) ∧
    impl_filter adHead10 99
        { logs_hub := [], blocks_hub := [], log_filter_max_block_range := 2 } 7 =
      some ({ logs_hub := [], blocks_hub := [], log_filter_max_block_range := 2 },
        Except.error (RpcError.cannotFindFilterId 7)) := by
  have h := C3_range_too_large adHead10 adHead10 99 99 7
    { logs_hub := [(7, { from_block := some (BlockId.num 0), to_block := none,
                         address := none, topics := [] }, 0)],
      blocks_hub := [], log_filter_max_block_range := 2 }
    { from_block := some (BlockId.num 0), to_block := none, address := none, topics := [] }
    0 { number := 10, hash := 1010 } rfl rfl rfl (by decide) (by decide)
  exact h

/-- C4 counterexample: a block-watch poll at head height 5 with stored cursor
5 (no new blocks) returns the empty sequence but leaves `last_access` at its
old value 0 instead of refreshing it to the current time 100; likewise a
log-watch poll whose resolved start 9 exceeds the head height 5 returns the
filter entry with `last_access` still 0 instead of 99.  Both empty-result
polls fail to refresh `last_access`, refuting the claim. -/
theorem C4_counterexample :
    filter_block adHead5 100 5 0 = some ([], 5, 0) ∧ (0 : Nat) ≠ 100 ∧
    filter_logs adHead5 100 99
        { from_block := some (BlockId.num 9), to_block := none,
          address := none, topics := [] } 0 =
      PollRes.ok ([], { from_block := some (BlockId.num 9), to_block := none,
                        address := none, topics := [] }, 0) ∧
    (0 : Nat) ≠ 99 := by
  exact ⟨rfl, by decide, rfl, by decide⟩

/-- C4 (amended): `last_access` is refreshed to the current time exactly by
the polls that get past the empty-result early returns: a block-watch poll
with new blocks (`S < head`) and a successful log-watch poll whose resolved
start is at most the head height both set it to `now`, while a block-watch
poll with `S ≥ head` and a log-watch poll with resolved start above the head
return their empty result with the entry (cursor and `last_access`)
unchanged. -/
theorem C4_last_access (adapter : Adapter) (max now start time : Nat) (flt : LoggerFilter)
    (latest : Block)
    (hh : adapter.get_block_by_number none = Except.ok (some latest)) :
    (latest.number ≤ start → filter_block adapter now start time = some ([], start, time)) ∧
    (∀ hs s' t', start < latest.number →
      filter_block adapter now start time = some (hs, s', t') → t' = now) ∧
    (latest.number < resolved_start latest.number flt →
      filter_logs adapter max now flt time = PollRes.ok ([], flt, time)) ∧
    (∀ logs flt' t', resolved_start latest.number flt ≤ latest.number →
      filter_logs adapter max now flt time = PollRes.ok (logs, flt', t') → t' = now) := by
  refine ⟨?_, ?_, ?_, ?_⟩
  · intro hge
    unfold filter_block
    rw [hh]
    simp [hge]
  · intro hs s' t' hlt heq
    unfold filter_block at heq
    rw [hh] at heq
    simp [Nat.not_le.mpr hlt] at heq
    split at heq
    · cases heq
    · cases heq
      rfl
  · intro hgt
    exact filter_logs_early_return adapter max now flt time latest hh hgt
  · intro logs flt' t' hle heq
    rcases filter_logs_ok_cases adapter max now flt time latest logs flt' t' hh heq with
      ⟨hgt, _⟩ | ⟨_, _, ht⟩
    · omega
    · exact ht

/-- C4 witness: at head height 5, a block-watch poll from cursor 3 at time 100
refreshes `last_access` to 100, and the poll from cursor 5 keeps the entry
unchanged. -/
theorem C4_witness :
    (5 ≤ 5 → filter_block adHead5 100 5 0 = some ([], 5, 0)) ∧
    (∀ hs s' t', (3 : Nat) < 5 →
      filter_block adHead5 100 3 0 = some (hs, s', t') → t' = 100) ∧
    ((5 : Nat) < resolved_start 5
        { from_block := some (BlockId.num 9), to_block := none,
          address := none, topics := [] } →
      filter_logs adHead5 100 99
          { from_block := some (BlockId.num 9), to_block := none,
            address := none, topics := [] } 0 =
        PollRes.ok ([], { from_block := some (BlockId.num 9), to_block := none,
                          address := none, topics := [] }, 0)) ∧
    (∀ logs flt' t',
      resolved_start 5 { from_block := some (BlockId.num 9), to_block := none,
                         address := none, topics := [] } ≤ 5 →
      filter_logs adHead5 100 99
          { from_block := some (BlockId.num 9), to_block := none,
            address := none, topics := [] } 0 = PollRes.ok (logs, flt', t') →
      t' = 99) := by
  have h4 := C4_last_access adHead5 100 99 5 0
    { from_block := some (BlockId.num 9), to_block := none, address := none, topics := [] }
    { number := 5, hash := 1005 } rfl
  have h4b := C4_last_access adHead5 100 100 3 0
    { from_block := some (BlockId.num 9), to_block := none, address := none, topics := [] }
    { number := 5, hash := 1005 } rfl
  exact ⟨fun _ => h4.1 (by decide), fun hs s' t' _ h => h4b.2.1 hs s' t' (by decide) h,
    h4.2.2.1, h4.2.2.2⟩

/-- C5 counterexample: a Chain Reader failure during a block-filter creation
panics the hub actor (modelled outcome `none`); so does a Chain Reader
failure during a block-watch poll (the double `unwrap` on the head fetch),
and so does delivering a reply into an abandoned reply slot even with a
healthy backend; finally, the actor loop run on a stream holding such a
failing request followed by further events aborts at that single request
instead of reaching the end of the stream — refuting that a Chain Reader
failure is surfaced only to the caller, that an abandoned reply is discarded
silently, and that only queue closure ends the loop. -/
theorem C5_counterexample :
    handle adFail 0 1 true hub0 Command.newBlocks = none ∧
    handle adFail 0 1 true
        { logs_hub := [], blocks_hub := [(5, 3, 0)], log_filter_max_block_range := 100 }
        (Command.filterRequest 5) = none ∧
    handle adHead3 0 1 false hub0 Command.newBlocks = none ∧
    run hub0 [LoopEvent.request adFail 0 1 true Command.newBlocks, LoopEvent.tick 5] = none := by
  exact ⟨rfl, rfl, rfl, rfl⟩

/-- C5 (amended): every error a log-watch poll reports is surfaced only to
that request's caller — the entry is removed and the actor survives to
deliver exactly that error as the reply — and the actor panics exactly at the
poll's crash outcome (a missing block mid-scan); but a Chain Reader failure
during a block- or log-filter creation panics the actor, as does a Chain
Reader failure during a block-watch poll, as does delivering any reply (of
any command) into an abandoned reply slot; closure of the command queue (the
end of the event stream) is the only normal exit of the actor loop, while a
single panicking request aborts the loop regardless of the events behind
it. -/
theorem C5_panic_boundaries (adapter : Adapter) (now fresh_id id : Nat) (hub : FilterHub)
    (flt : LoggerFilter) (time : Nat)
    (hb : hubLookup hub.blocks_hub id = none)
    (hl : hubLookup hub.logs_hub id = some (flt, time)) :
    (∀ e, filter_logs adapter hub.log_filter_max_block_range now flt time = PollRes.err e →
      handle adapter now fresh_id true hub (Command.filterRequest id) =
        some ({ hub with logs_hub := hubRemove hub.logs_hub id },
          Reply.changes (Except.error e))) ∧
    (∀ alive : Bool,
      filter_logs adapter hub.log_filter_max_block_range now flt time = PollRes.crash →
      handle adapter now fresh_id alive hub (Command.filterRequest id) = none) ∧
    (∀ a2 : Adapter, ∀ n f : Nat, ∀ h2 : FilterHub, ∀ alive : Bool,
      a2.get_block_header_by_number none = Except.error () →
      handle a2 n f alive h2 Command.newBlocks = none) ∧
    (∀ a3 : Adapter, ∀ n f : Nat, ∀ h3 : FilterHub, ∀ alive : Bool, ∀ flt3 : LoggerFilter,
      a3.get_block_header_by_number none = Except.error () →
      handle a3 n f alive h3 (Command.newLogs flt3) = none) ∧
    (∀ a4 : Adapter, ∀ n f id4 : Nat, ∀ h4 : FilterHub, ∀ alive : Bool, ∀ s t4 : Nat,
      hubLookup h4.blocks_hub id4 = some (s, t4) →
      a4.get_block_by_number none = Except.error () →
      handle a4 n f alive h4 (Command.filterRequest id4) = none) ∧
    (∀ a5 : Adapter, ∀ n f : Nat, ∀ h5 : FilterHub, ∀ cmd : Command,
      handle a5 n f false h5 cmd = none) ∧
    (∀ h6 : FilterHub, run h6 [] = some h6) ∧
    (∀ h7 : FilterHub, ∀ rest : List LoopEvent, ∀ a7 : Adapter, ∀ n f : Nat, ∀ alive : Bool,
      ∀ cmd : Command, handle a7 n f alive h7 cmd = none →
      run h7 (LoopEvent.request a7 n f alive cmd :: rest) = none) := by
  refine ⟨?_, ?_, ?_, ?_, ?_, ?_, ?_, ?_⟩
  · intro e herr
    simp only [handle]
    rw [impl_filter_logs_path adapter now hub id flt time hb hl, herr]
    rfl
  · intro alive hcr
    simp only [handle]
    rw [impl_filter_logs_path adapter now hub id flt time hb hl, hcr]
  · intro a2 n f h2 alive herr
    unfold handle
    rw [herr]
  · intro a3 n f h3 alive flt3 herr
    unfold handle
    rw [herr]
  · intro a4 n f id4 h4 alive s t4 hbk hherr
    have himp : impl_filter a4 n h4 id4 = none := by
      simp only [impl_filter, hbk, filter_block, hherr]
    simp only [handle, himp]
  · intro a5 n f h5 cmd
    cases cmd <;> simp only [handle] <;> first
      | rfl
      | (split <;> rfl)
  · intro h6
    rfl
  · intro h7 rest a7 n f alive cmd hpanic
    simp only [run, hpanic]

/-- C5 witness: the registry `hubLogOnly` (only log filter 7) driven through
the failing Chain Reader `adFail`: the instantiated amended statement — in
particular the log poll's `Internal` error is delivered as the caller's reply
with the entry removed, discharged by evaluating `filter_logs` on `adFail`,
while creations, block-watch polls and abandoned reply slots panic and the
empty event stream ends the loop normally. -/
theorem C5_witness :
    (∀ e, filter_logs adFail 100 42 fltLogOnly 0 = PollRes.err e →
      handle adFail 42 1 true hubLogOnly (Command.filterRequest 7) =
        some ({ hubLogOnly with logs_hub := hubRemove hubLogOnly.logs_hub 7 },
          Reply.changes (Except.error e))) ∧
    (∀ alive : Bool,
      filter_logs adFail 100 42 fltLogOnly 0 = PollRes.crash →
      handle adFail 42 1 alive hubLogOnly (Command.filterRequest 7) = none) ∧
    (∀ a2 : Adapter, ∀ n f : Nat, ∀ h2 : FilterHub, ∀ alive : Bool,
      a2.get_block_header_by_number none = Except.error () →
      handle a2 n f alive h2 Command.newBlocks = none) ∧
    (∀ a3 : Adapter, ∀ n f : Nat, ∀ h3 : FilterHub, ∀ alive : Bool, ∀ flt3 : LoggerFilter,
      a3.get_block_header_by_number none = Except.error () →
      handle a3 n f alive h3 (Command.newLogs flt3) = none) ∧
    (∀ a4 : Adapter, ∀ n f id4 : Nat, ∀ h4 : FilterHub, ∀ alive : Bool, ∀ s t4 : Nat,
      hubLookup h4.blocks_hub id4 = some (s, t4) →
      a4.get_block_by_number none = Except.error () →
      handle a4 n f alive h4 (Command.filterRequest id4) = none) ∧
    (∀ a5 : Adapter, ∀ n f : Nat, ∀ h5 : FilterHub, ∀ cmd : Command,
      handle a5 n f false h5 cmd = none) ∧
    (∀ h6 : FilterHub, run h6 [] = some h6) ∧
    (∀ h7 : FilterHub, ∀ rest : List LoopEvent, ∀ a7 : Adapter, ∀ n f : Nat, ∀ alive : Bool,
      ∀ cmd : Command, handle a7 n f alive h7 cmd = none →
      run h7 (LoopEvent.request a7 n f alive cmd :: rest) = none) :=
  C5_panic_boundaries adFail 42 1 7 hubLogOnly fltLogOnly 0 rfl rfl

/-- C6: a block-watch poll with stored cursor `S` against head block `L`
returns the empty sequence with `S` and `last_access` unchanged when
`S ≥ L.number`, and otherwise returns exactly the hashes of the chain blocks
at heights `S+1` through `L.number` in ascending height order (the head's own
hash last, since the chain maps `L.number` to `L`) and sets the cursor to
`L.number`. -/
theorem C6_filter_block (adapter : Adapter) (now start time : Nat) (latest : Block)
    (blockAt : Nat → Block)
    (hh : adapter.get_block_by_number none = Except.ok (some latest))
    (hb : ∀ n, adapter.get_block_by_number (some n) = Except.ok (some (blockAt n)))
    (hc : blockAt latest.number = latest) :
    (latest.number ≤ start → filter_block adapter now start time = some ([], start, time)) ∧
    (start < latest.number → filter_block adapter now start time =
      some ((List.range' (start + 1) (latest.number - start)).map (fun n => (blockAt n).hash),
        latest.number, now)) := by
  constructor
  · intro hge
    unfold filter_block
    rw [hh]
    simp [hge]
  · intro hlt
    simp only [filter_block, hh]
    rw [if_neg (Nat.not_le.mpr hlt)]
    rw [collect_hashes_total adapter blockAt hb]
    have hsplit : latest.number - start = (latest.number - (start + 1)) + 1 := by omega
    rw [hsplit, List.range'_1_concat]
    have hlast : start + 1 + (latest.number - (start + 1)) = latest.number := by omega
    rw [hlast]
    simp [hc]

/-- C6 witness: the end-to-end scenario — a block watch whose cursor is 100
polled when the head is block 103 returns exactly the three hashes 1101,
1102, 1103 in ascending height order and sets the cursor to 103; polled again
with no new blocks it returns the empty sequence and keeps the cursor. -/
theorem C6_witness :
    (100 : Nat) < 103 ∧
    filter_block adHead103 50 100 0 = some ([1101, 1102, 1103], 103, 50) ∧
    (103 : Nat) ≤ 103 ∧
    filter_block adHead103 60 103 50 = some ([], 103, 50) := by
  have h := C6_filter_block adHead103 50 100 0 { number := 103, hash := 1103 }
    (fun n => { number := n, hash := 1000 + n }) rfl (fun n => rfl) rfl
  have h2 := C6_filter_block adHead103 60 103 50 { number := 103, hash := 1103 }
    (fun n => { number := n, hash := 1000 + n }) rfl (fun n => rfl) rfl
  refine ⟨by decide, ?_, by decide, h2.1 (by decide)⟩
  rw [h.2 (by decide)]
  rfl

/-- C7: a log-watch poll whose resolved start exceeds the current head height
succeeds with the empty log sequence, and the entry is written back with
cursor and `last_access` unchanged — it remains in the registry under its id
with the same stored value. -/
theorem C7_start_exceeds_head (adapter : Adapter) (now id : Nat) (hub : FilterHub)
    (flt : LoggerFilter) (time : Nat) (latest : Block)
    (hb : hubLookup hub.blocks_hub id = none)
    (hl : hubLookup hub.logs_hub id = some (flt, time))
    (hh : adapter.get_block_by_number none = Except.ok (some latest))
    (hs : latest.number < resolved_start latest.number flt) :
    impl_filter adapter now hub id =
      some ({ hub with logs_hub := hubInsert hub.logs_hub id (flt, time) },
        Except.ok (FilterChanges.logs [])) ∧
    hubLookup (hubInsert hub.logs_hub id (flt, time)) id = some (flt, time) := by
  constructor
  · rw [impl_filter_logs_path adapter now hub id flt time hb hl]
    rw [filter_logs_early_return adapter hub.log_filter_max_block_range now flt time latest hh hs]
  · exact hubLookup_hubInsert_self hub.logs_hub id (flt, time)

/-- C7 witness: a registry holding log filter 7 with cursor `Number(9)`,
polled at head height 5: the poll returns `Ok(Logs [])` and the entry is
still present with cursor `Number(9)` and its old `last_access`. -/
theorem C7_witness :
    impl_filter adHead5 99
        { logs_hub := [(7, { from_block := some (BlockId.num 9), to_block := none,
                             address := none, topics := [] }, 0)],
          blocks_hub := [], log_filter_max_block_range := 100 } 7 =
      some ({ logs_hub := [(7, { from_block := some (BlockId.num 9), to_block := none,
                                 address := none, topics := [] }, 0)],
              blocks_hub := [], log_filter_max_block_range := 100 },
        Except.ok (FilterChanges.logs [])) ∧
    hubLookup [(7, ({ from_block := some (BlockId.num 9), to_block := none,
                      address := none, topics := [] } : LoggerFilter), (0 : Nat))] 7 =
      some ({ from_block := some (BlockId.num 9), to_block := none,
              address := none, topics := [] }, 0) := by
  have h := C7_start_exceeds_head adHead5 99 7
    { logs_hub := [(7, { from_block := some (BlockId.num 9), to_block := none,
                         address := none, topics := [] }, 0)],
      blocks_hub := [], log_filter_max_block_range := 100 }
    { from_block := some (BlockId.num 9), to_block := none, address := none, topics := [] }
    0 { number := 5, hash := 1005 } rfl rfl rfl (by decide)
  exact ⟨h.1, rfl⟩

/-- C8: the sweep runs on a 20-second ticker, and one `check_hubs` pass at
time `now` retains an entry of either sub-map iff it was there before and its
idle time `now - last_access` (saturating) is strictly below the 40-second
window — every entry idle at least 40 seconds is dropped, every younger one
kept. -/
theorem C8_sweep (now : Nat) (hub : FilterHub) :
    sweep_interval_secs = 20 ∧ idle_window_secs = 40 ∧
    (∀ e, e ∈ (check_hubs now hub).blocks_hub ↔
      e ∈ hub.blocks_hub ∧ now - e.2.2 < idle_window_secs) ∧
    (∀ e, e ∈ (check_hubs now hub).logs_hub ↔
      e ∈ hub.logs_hub ∧ now - e.2.2 < idle_window_secs) := by
  refine ⟨rfl, rfl, ?_, ?_⟩ <;> intro e <;>
    simp [check_hubs, List.mem_filter]

/-- C9: uninstall removes the entry with the given id from whichever sub-map
contains it (they never both do) and replies whether anything was removed;
afterwards the id is in neither sub-map, so uninstalling the same id again on
the resulting registry replies `false` and changes nothing. -/
theorem C9_uninstall (adapter : Adapter) (now fresh_id id : Nat) (hub : FilterHub)
    (hdisj : (hubLookup hub.blocks_hub id).isSome = false ∨
             (hubLookup hub.logs_hub id).isSome = false) :
    ∃ hub', handle adapter now fresh_id true hub (Command.uninstall id) =
        some (hub', Reply.removed
          ((hubLookup hub.blocks_hub id).isSome || (hubLookup hub.logs_hub id).isSome)) ∧
      hubLookup hub'.blocks_hub id = none ∧ hubLookup hub'.logs_hub id = none ∧
      handle adapter now fresh_id true hub' (Command.uninstall id) =
        some (hub', Reply.removed false) := by
  rcases ho : hubLookup hub.blocks_hub id with _ | v
  · refine ⟨{ hub with blocks_hub := hubRemove hub.blocks_hub id,
                       logs_hub := hubRemove hub.logs_hub id }, ?_, ?_, ?_, ?_⟩
    · simp only [handle, ho]
      rfl
    · exact hubLookup_hubRemove_self hub.blocks_hub id
    · exact hubLookup_hubRemove_self hub.logs_hub id
    · have h2 := hubLookup_hubRemove_self hub.blocks_hub id
      have h3 := hubLookup_hubRemove_self hub.logs_hub id
      simp only [handle, h2, h3, Option.isSome_none, Bool.false_eq_true, if_false,
        hubRemove_eq_self _ _ h2, hubRemove_eq_self _ _ h3]
      rfl
  · have hlg : hubLookup hub.logs_hub id = none := by
      rcases hdisj with h | h
      · rw [ho] at h
        cases h
      · cases hl2 : hubLookup hub.logs_hub id with
        | none => rfl
        | some w => rw [hl2] at h; cases h
    refine ⟨{ hub with blocks_hub := hubRemove hub.blocks_hub id }, ?_, ?_, ?_, ?_⟩
    · simp only [handle, ho, hlg]
      rfl
    · exact hubLookup_hubRemove_self hub.blocks_hub id
    · exact hlg
    · have h2 := hubLookup_hubRemove_self hub.blocks_hub id
      simp only [handle, h2, Option.isSome_none, Bool.false_eq_true, if_false, hlg,
        hubRemove_eq_self _ _ h2, hubRemove_eq_self _ _ hlg]
      rfl

/-- C9 witness: a registry holding only the block watch 5: uninstalling id 5
replies `true` and empties the registry, and uninstalling it again replies
`false`; the id is afterwards in neither sub-map. -/
theorem C9_witness :
    ∃ hub', handle adHead3 0 1 true
        { logs_hub := [], blocks_hub := [(5, 3, 0)], log_filter_max_block_range := 100 }
        (Command.uninstall 5) =
      some (hub', Reply.removed
        ((hubLookup [(5, (3 : Nat), (0 : Nat))] 5).isSome ||
         (hubLookup ([] : List (Nat × LoggerFilter × Nat)) 5).isSome)) ∧
      hubLookup hub'.blocks_hub 5 = none ∧ hubLookup hub'.logs_hub 5 = none ∧
      handle adHead3 0 1 true hub' (Command.uninstall 5) =
        some (hub', Reply.removed false) :=
  C9_uninstall adHead3 0 1 5
    { logs_hub := [], blocks_hub := [(5, 3, 0)], log_filter_max_block_range := 100 }
    (Or.inr rfl)

/-- C10 counterexample: the filter `from_block = Number(10)`,
`to_block = Number(3)` is registered at head height 3 with its cursor kept at
`Number(10)`; a later poll at head height 7 — a successful poll performed
while the head height 7 is at least `t = 3` — returns `Ok([])` through the
`start > head` early return and leaves the cursor at `Number(10)`, not
`Number(4) = Number(t + 1)` as the claim requires. -/
theorem C10_counterexample :
    handle adHead3 0 1 true hub0
        (Command.newLogs { from_block := some (BlockId.num 10),
                           to_block := some (BlockId.num 3),
                           address := none, topics := [] }) =
      some ({ hub0 with logs_hub :=
                [(1, { from_block := some (BlockId.num 10), to_block := some (BlockId.num 3),
                       address := none, topics := [] }, 0)] },
        Reply.id 1) ∧
    (3 : Nat) ≤ 7 ∧
    filter_logs adHead7 100 9
        { from_block := some (BlockId.num 10), to_block := some (BlockId.num 3),
          address := none, topics := [] } 0 =
      PollRes.ok ([], { from_block := some (BlockId.num 10), to_block := some (BlockId.num 3),
                        address := none, topics := [] }, 0) ∧
    (some (BlockId.num 10) : Option BlockId) ≠ some (BlockId.num 4) := by
  exact ⟨rfl, by decide, rfl, by decide⟩

/-- C10 (amended): for a log-watch with `to_block = Number(t)` and cursor
`Number(c)`, a successful poll whose resolved start `c` and bound `t` are
both at most the head height sets the cursor to `Number(t + 1)` (polls whose
resolved start exceeds the head leave the cursor untouched); once the cursor
is `Number(t + 1)`, every subsequent successful poll — under any adapter,
head and time — returns the empty log sequence with the filter unchanged;
and `getFilterLogs` issues exactly the same command as `getFilterChanges`,
so both wire methods share this delta behaviour. -/
theorem C10_bounded_filter (adapter : Adapter) (max now time t c : Nat) (flt : LoggerFilter)
    (latest : Block)
    (hfrom : flt.from_block = some (BlockId.num c))
    (hto : flt.to_block = some (BlockId.num t))
    (hh : adapter.get_block_by_number none = Except.ok (some latest))
    (hstart : c ≤ latest.number) (hT : t ≤ latest.number) :
    (∀ logs flt' time', filter_logs adapter max now flt time = PollRes.ok (logs, flt', time') →
      flt'.from_block = some (BlockId.num (t + 1))) ∧
    (∀ adapter2 : Adapter, ∀ latest2 : Block, ∀ max2 now2 time2 : Nat, ∀ flt2 : LoggerFilter,
      flt2.from_block = some (BlockId.num (t + 1)) →
      flt2.to_block = some (BlockId.num t) →
      adapter2.get_block_by_number none = Except.ok (some latest2) →
      ∃ time3, filter_logs adapter2 max2 now2 flt2 time2 = PollRes.ok ([], flt2, time3)) ∧
    (∀ i, get_filter_logs_command i = get_filter_changes_command i) := by
  have hst : resolved_start latest.number flt = c := by
    simp [resolved_start, hfrom, convertBlockId]
  have hsp : resolved_stop latest.number flt = t := by
    simp [resolved_stop, hto, convertBlockId]
    omega
  refine ⟨?_, ?_, fun i => rfl⟩
  · intro logs flt' time' hok
    rcases filter_logs_ok_cases adapter max now flt time latest logs flt' time' hh hok with
      ⟨hgt, _⟩ | ⟨_, hflt, _⟩
    · omega
    · rw [hflt, hsp]
      unfold advance_cursor
      rw [hfrom]
  · intro adapter2 latest2 max2 now2 time2 flt2 hfrom2 hto2 hh2
    have hst2 : resolved_start latest2.number flt2 = t + 1 := by
      simp [resolved_start, hfrom2, convertBlockId]
    rcases Nat.lt_or_ge latest2.number (t + 1) with hlt | hge
    · refine ⟨time2, ?_⟩
      exact filter_logs_early_return adapter2 max2 now2 flt2 time2 latest2 hh2 (by omega)
    · have hsp2 : resolved_stop latest2.number flt2 = t := by
        simp [resolved_stop, hto2, convertBlockId]
        omega
      refine ⟨now2, ?_⟩
      have h := filter_logs_empty_range adapter2 max2 now2 flt2 time2 latest2 hh2
        (by omega) (by omega)
      rw [h, hsp2]
      have hadv : advance_cursor t flt2 = flt2 := by
        unfold advance_cursor
        rw [hfrom2]
        show { flt2 with from_block := some (BlockId.num (t + 1)) } = flt2
        rw [← hfrom2]
      rw [hadv]

/-- C10 witness: the filter with cursor `Number(4)` and `to_block = Number(3)`
polled at head height 12 — the instantiated amended statement; in particular
its second component applies to show any poll from cursor `Number(4)` returns
no logs. -/
theorem C10_witness :
    (∀ logs flt' time',
      filter_logs adHead12 100 9
          { from_block := some (BlockId.num 4), to_block := some (BlockId.num 3),
            address := none, topics := [] } 0 = PollRes.ok (logs, flt', time') →
      flt'.from_block = some (BlockId.num 4)) ∧
    (∀ adapter2 : Adapter, ∀ latest2 : Block, ∀ max2 now2 time2 : Nat, ∀ flt2 : LoggerFilter,
      flt2.from_block = some (BlockId.num 4) →
      flt2.to_block = some (BlockId.num 3) →
      adapter2.get_block_by_number none = Except.ok (some latest2) →
      ∃ time3, filter_logs adapter2 max2 now2 flt2 time2 = PollRes.ok ([], flt2, time3)) ∧
    (∀ i, get_filter_logs_command i = get_filter_changes_command i) :=
  C10_bounded_filter adHead12 100 9 0 3 4
    { from_block := some (BlockId.num 4), to_block := some (BlockId.num 3),
      address := none, topics := [] }
    { number := 12, hash := 1012 } rfl rfl rfl (by decide) (by decide)

end AxonFilter
